import Mathlib

/-!
Verification development for the AlgoSync multiagent debugger.

The repository ships the React frontend (App.jsx, WorkflowDashboard.jsx,
ResultsPanel.jsx, AlgorithmCanvas.jsx, CodeEditor.jsx), launcher scripts and
READMEs.  The Python backend (orchestrator, aggregator, pattern classifier,
simulation engine) is documented in the design spec and the backend README but
its source is not part of the repository snapshot; those components are
modelled here from the spec, while everything about the frontend is embedded
directly from the JSX sources.
-/

/- ## Data model (spec section 3) -/

/-- Modelled from the spec: Finding severity enum (backend data model is not in
the repository snapshot; section 3 gives `severity: enum{info, warning, error,
critical}`). -/
inductive Severity
  | info
  | warning
  | error
  | critical
deriving DecidableEq, Repr

/-- Modelled from the spec: a Finding produced by an agent (section 3). -/
structure Finding where
  severity : Severity
  message : String
  line : Option Nat
  suggestion : Option String
  code_example : Option String
deriving DecidableEq, Repr

/-- Modelled from the spec: terminal state of one agent task (section 4.4:
each task ends `COMPLETED` or `ERRORED`). -/
inductive AgentStatus
  | completed
  | error
deriving DecidableEq, Repr

/-- Modelled from the spec: AgentResult record (section 3). -/
structure AgentResult where
  agent_id : String
  findings : List Finding
  status : AgentStatus
  error_detail : Option String
deriving DecidableEq, Repr

/- ## Fixed agent roster (WorkflowDashboard.jsx, AGENTS) -/

/-- The fixed roster, embedded from the `AGENTS` constant of
`src/frontend/src/components/WorkflowDashboard.jsx` (id and display name,
in the declared order). -/
def AGENTS : List (String × String) :=
  [("error_detector", "Error Detector"),
   ("complexity_analyzer", "Complexity Analyzer"),
   ("memory_profiler", "Memory Profiler"),
   ("security_analyzer", "Security Analyzer"),
   ("quality_checker", "Quality Checker"),
   ("algorithm_visualizer", "Algorithm Visualizer"),
   ("fix_suggester", "Fix Suggester")]

/- ## Aggregator (spec sections 3 and 4.5) -/

/-- Modelled from the spec: the severity-bearing agents, section 3 invariant
(`critical_issues`/`warnings` count findings of the error-detector, security
and quality agents only). -/
def severityBearingAgents : List String :=
  ["error_detector", "security_analyzer", "quality_checker"]

/-- Modelled from the spec: `total_findings` = sum of findings across all
AgentResults (section 3 invariant). -/
def totalFindings (results : List AgentResult) : Nat :=
  (results.map (fun r => r.findings.length)).sum

/-- Modelled from the spec: count of findings with a given severity restricted
to the severity-bearing agents (section 3 invariant). -/
def countSeverity (results : List AgentResult) (s : Severity) : Nat :=
  ((results.filter (fun r => severityBearingAgents.contains r.agent_id)).map
    (fun r => (r.findings.filter (fun f => f.severity = s)).length)).sum

/-- Modelled from the spec: quality score as a bounded deduction — start at
100, subtract 15 per critical, 8 per error, 3 per warning (info: 0) from
severity-bearing agents, floor at 0 (section 4.5). -/
def qualityScore (results : List AgentResult) : Int :=
  max 0 (100 - 15 * (countSeverity results Severity.critical : Int)
             - 8 * (countSeverity results Severity.error : Int)
             - 3 * (countSeverity results Severity.warning : Int))

/-- Modelled from the spec: run-level terminal states (section 4.4). -/
inductive RunStatus
  | COMPLETED
  | PARTIAL
  | FAILED
deriving DecidableEq, Repr

/-- Modelled from the spec: the run reaches `COMPLETED` when all agent tasks
end with zero errors, `FAILED` only if every agent errors, `PARTIAL`
otherwise (section 4.4). -/
def runStatus (results : List AgentResult) : RunStatus :=
  if results.all (fun r => r.status == AgentStatus.completed) then
    RunStatus.COMPLETED
  else if results.all (fun r => r.status == AgentStatus.error) then
    RunStatus.FAILED
  else
    RunStatus.PARTIAL

/-- Modelled from the spec: AnalysisReport summary block (section 3). -/
structure Summary where
  total_findings : Nat
  critical_issues : Nat
  warnings : Nat
  quality_score : Int
deriving DecidableEq, Repr

/-- Modelled from the spec: the AnalysisReport built by the Aggregator
(section 3; visualizations are kept separate in the frontend model below). -/
structure AnalysisReport where
  status : RunStatus
  summary : Summary
  agent_results : List AgentResult
deriving DecidableEq, Repr

/-- Modelled from the spec: the Aggregator, a pure function from the per-agent
results to the report (section 4.5). -/
def aggregate (results : List AgentResult) : AnalysisReport :=
  { status := runStatus results
    summary :=
      { total_findings := totalFindings results
        critical_issues := countSeverity results Severity.critical
        warnings := countSeverity results Severity.warning
        quality_score := qualityScore results }
    agent_results := results }

/- ## Concrete agent-result fixtures used by witnesses and boundary cases -/

/-- A roster-shaped run where every agent completed with no findings. -/
def cleanRun : List AgentResult :=
  AGENTS.map (fun a => ⟨a.1, [], AgentStatus.completed, none⟩)

/-- A finding with only a severity and message set. -/
def mkFinding (s : Severity) (msg : String) : Finding :=
  ⟨s, msg, none, none, none⟩

/-- A run where the error detector reports one critical finding and the
quality checker two warnings, everything completing. -/
def mixedFindingsRun : List AgentResult :=
  [⟨"error_detector", [mkFinding Severity.critical "buffer overflow"],
    AgentStatus.completed, none⟩,
   ⟨"complexity_analyzer", [], AgentStatus.completed, none⟩,
   ⟨"memory_profiler", [], AgentStatus.completed, none⟩,
   ⟨"security_analyzer", [], AgentStatus.completed, none⟩,
   ⟨"quality_checker",
    [mkFinding Severity.warning "long function",
     mkFinding Severity.warning "deep nesting"],
    AgentStatus.completed, none⟩,
   ⟨"algorithm_visualizer", [], AgentStatus.completed, none⟩,
   ⟨"fix_suggester", [], AgentStatus.completed, none⟩]

/- ## Claim theorems -/

/-- C1: for every run, the returned AnalysisReport satisfies
`summary.total_findings` = sum of the lengths of the findings sequences over
all AgentResults in `agent_results`. -/
theorem C1_total_findings_is_sum (results : List AgentResult) :
    (aggregate results).summary.total_findings
      = ((aggregate results).agent_results.map
          (fun r => r.findings.length)).sum := rfl

/-- An agent status that is not `completed` is `error`: the two constructors
are the only terminal states. -/
theorem AgentStatus.eq_error_of_ne_completed (s : AgentStatus)
    (h : s ≠ AgentStatus.completed) : s = AgentStatus.error := by
  cases s
  · exact absurd rfl h
  · rfl

/-- An agent status that is not `error` is `completed`. -/
theorem AgentStatus.eq_completed_of_ne_error (s : AgentStatus)
    (h : s ≠ AgentStatus.error) : s = AgentStatus.completed := by
  cases s
  · rfl
  · exact absurd rfl h

/-- The boolean all-completed check of `runStatus` agrees with the
propositional statement. -/
theorem all_completed_iff (results : List AgentResult) :
    (results.all (fun r => r.status == AgentStatus.completed) = true)
      ↔ ∀ r ∈ results, r.status = AgentStatus.completed := by
  simp [List.all_eq_true]

/-- The boolean all-errored check of `runStatus` agrees with the
propositional statement. -/
theorem all_errored_iff (results : List AgentResult) :
    (results.all (fun r => r.status == AgentStatus.error) = true)
      ↔ ∀ r ∈ results, r.status = AgentStatus.error := by
  simp [List.all_eq_true]

/-- C2: once all agent tasks are terminal, the run status is COMPLETED iff no
agent errored, FAILED iff every agent errored, and PARTIAL iff at least one
errored and at least one succeeded. -/
theorem C2_run_status_trichotomy (results : List AgentResult)
    (hne : results ≠ []) :
    ((aggregate results).status = RunStatus.COMPLETED
       ↔ ∀ r ∈ results, r.status = AgentStatus.completed)
    ∧ ((aggregate results).status = RunStatus.FAILED
       ↔ ∀ r ∈ results, r.status = AgentStatus.error)
    ∧ ((aggregate results).status = RunStatus.PARTIAL
       ↔ (∃ r ∈ results, r.status = AgentStatus.error)
         ∧ ∃ r ∈ results, r.status = AgentStatus.completed) := by
  obtain ⟨r0, rest, rfl⟩ := List.exists_cons_of_ne_nil hne
  show (runStatus _ = _ ↔ _) ∧ (runStatus _ = _ ↔ _) ∧ (runStatus _ = _ ↔ _)
  unfold runStatus
  split_ifs with h1 h2
  · rw [all_completed_iff] at h1
    have hr0 := h1 r0 (List.mem_cons_self r0 rest)
    refine ⟨iff_of_true rfl h1, ?_, ?_⟩
    · simp only [reduceCtorEq, false_iff]
      intro hall
      have := hall r0 (List.mem_cons_self r0 rest)
      rw [hr0] at this
      exact AgentStatus.noConfusion this
    · simp only [reduceCtorEq, false_iff]
      rintro ⟨⟨r, hr, hrerr⟩, -⟩
      have := h1 r hr
      rw [this] at hrerr
      exact AgentStatus.noConfusion hrerr
  · rw [all_completed_iff] at h1
    rw [all_errored_iff] at h2
    refine ⟨?_, iff_of_true rfl h2, ?_⟩
    · simp only [reduceCtorEq, false_iff]
      intro hall
      exact h1 hall
    · simp only [reduceCtorEq, false_iff]
      rintro ⟨-, s, hs, hsc⟩
      have := h2 s hs
      rw [this] at hsc
      exact AgentStatus.noConfusion hsc
  · rw [all_completed_iff] at h1
    rw [all_errored_iff] at h2
    simp only [not_forall] at h1 h2
    obtain ⟨r, hr, hrnc⟩ := h1
    obtain ⟨s, hs, hsne⟩ := h2
    have hrerr := AgentStatus.eq_error_of_ne_completed r.status hrnc
    have hsc := AgentStatus.eq_completed_of_ne_error s.status hsne
    refine ⟨?_, ?_, ?_⟩
    · simp only [reduceCtorEq, false_iff, not_forall]
      exact ⟨r, hr, fun hc => by rw [hc] at hrerr; exact AgentStatus.noConfusion hrerr⟩
    · simp only [reduceCtorEq, false_iff, not_forall]
      exact ⟨s, hs, fun hc => by rw [hc] at hsc; exact AgentStatus.noConfusion hsc⟩
    · simp only [true_iff]
      exact ⟨⟨r, hr, hrerr⟩, ⟨s, hs, hsc⟩⟩

/-- Witness for C2 at a concrete mixed run: one agent errored, the rest
completed, so the status is PARTIAL. -/
theorem C2_run_status_trichotomy_witness :
    (aggregate
      [⟨"error_detector", [], AgentStatus.error, some "boom"⟩,
       ⟨"quality_checker", [], AgentStatus.completed, none⟩]).status
      = RunStatus.PARTIAL := by
  have h := C2_run_status_trichotomy
    [⟨"error_detector", [], AgentStatus.error, some "boom"⟩,
     ⟨"quality_checker", [], AgentStatus.completed, none⟩]
    (by decide)
  exact h.2.2.mpr
    ⟨⟨⟨"error_detector", [], AgentStatus.error, some "boom"⟩, by simp, rfl⟩,
     ⟨⟨"quality_checker", [], AgentStatus.completed, none⟩, by simp, rfl⟩⟩

/-- C3: the aggregator computes `quality_score` as
max(0, 100 − 15·critical − 8·error − 3·warning) counting only findings of
severity-bearing agents; a run with zero such findings scores exactly 100 and
a run with 1 critical plus 2 warnings scores exactly 79. -/
theorem C3_quality_score (results : List AgentResult) :
    (aggregate results).summary.quality_score
      = max 0 (100 - 15 * (countSeverity results Severity.critical : Int)
                   - 8 * (countSeverity results Severity.error : Int)
                   - 3 * (countSeverity results Severity.warning : Int))
    ∧ (aggregate cleanRun).summary.quality_score = 100
    ∧ (aggregate mixedFindingsRun).summary.quality_score = 79 :=
  ⟨rfl, by decide, by decide⟩

/- ## Simulation engine (spec section 4.3) -/

/-- Modelled from the spec: visualization categories (section 3; the
simulation-engine source is not in the repository snapshot). The
`unclassified` constructor is the classifier result `none` of section 4.2. -/
inductive Category
  | sorting
  | searching
  | graph
  | tree
  | array
  | unclassified
deriving DecidableEq, Repr

/-- Modelled from the spec: a sorting frame (section 3 Frame variant). -/
structure SortFrame where
  array : List Nat
  comparing : List Nat
  swapping : List Nat
  sorted : List Nat
  message : String
deriving DecidableEq, Repr

/-- Modelled from the spec: visualization metrics — counts of comparisons and
swaps actually performed during simulation (section 3, section 4.3). -/
structure Metrics where
  comparisons : Nat
  swaps : Option Nat
  time_complexity : String
  space_complexity : String
deriving DecidableEq, Repr

/-- Modelled from the spec: a Visualization (section 3) restricted to the
sorting frame variant that the embedded reference implementation emits. -/
structure Visualization where
  category : Category
  algorithm_name : String
  frames : List SortFrame
  metrics : Metrics
deriving DecidableEq, Repr

/-- Working state of the instrumented sorting reference implementation. -/
structure SimState where
  arr : List Nat
  frames : List SortFrame
  comparisons : Nat
  swaps : Nat
deriving DecidableEq, Repr

/-- Exchange the entries at positions i and j of a list. -/
def listSwap (l : List Nat) (i j : Nat) : List Nat :=
  let vi := l.getD i 0
  let vj := l.getD j 0
  (l.set i vj).set j vi

/-- Indices already in final position after i completed bubble passes over an
array of length n (the last i positions). -/
def sortedTail (n i : Nat) : List Nat :=
  (List.range n).filter (fun k => n - i ≤ k)

/-- Modelled from the spec: one instrumented bubble-sort comparison at
position j during pass i — one frame per comparison and one additional frame
per swap, counters incremented per operation actually performed
(section 4.3). -/
def compareStep (n i : Nat) (s : SimState) (j : Nat) : SimState :=
  let x := s.arr.getD j 0
  let y := s.arr.getD (j + 1) 0
  let s1 : SimState :=
    { s with comparisons := s.comparisons + 1,
             frames := s.frames ++
               [{ array := s.arr, comparing := [j, j + 1], swapping := [],
                  sorted := sortedTail n i, message := "Comparing elements" }] }
  if y < x then
    let a2 := listSwap s.arr j (j + 1)
    { s1 with arr := a2, swaps := s1.swaps + 1,
              frames := s1.frames ++
                [{ array := a2, comparing := [], swapping := [j, j + 1],
                   sorted := sortedTail n i, message := "Swapped elements" }] }
  else s1

/-- Modelled from the spec: the instrumented bubble-sort reference
implementation — nested passes over the array, a terminal frame whose
`sorted` set is the full index range, and metrics counting the operations
performed (sections 4.3 and 8). -/
def bubbleSim (input : List Nat) : Visualization :=
  let n := input.length
  let final := (List.range n).foldl
    (fun st i => (List.range (n - i - 1)).foldl (compareStep n i) st)
    { arr := input, frames := [], comparisons := 0, swaps := 0 }
  { category := Category.sorting
    algorithm_name := "Bubble Sort"
    frames := final.frames ++
      [{ array := final.arr, comparing := [], swapping := [],
         sorted := List.range n, message := "Sorting complete" }]
    metrics := { comparisons := final.comparisons, swaps := some final.swaps,
                 time_complexity := "O(n^2)", space_complexity := "O(1)" } }

/-- Modelled from the spec: the fixed default dataset the engine synthesizes
when the submission carries no input data (section 4.3: deterministic, 7-10
elements; section 8 pins this exact list). -/
def defaultData : List Nat := [64, 34, 25, 12, 22, 11, 90]

/-- Modelled from the spec: `simulate(category, algorithm_name)` on the
default input. The sorting reference implementation is embedded in full; the
remaining categories return a frame-less static visualization (section 4.3
frame-less rendering). -/
def simulate (cat : Category) (name : String) : Visualization :=
  match cat with
  | Category.sorting => bubbleSim defaultData
  | _ =>
    { category := cat, algorithm_name := name, frames := [],
      metrics := { comparisons := 0, swaps := none,
                   time_complexity := "N/A", space_complexity := "N/A" } }

/- ## Pattern classifier (spec section 4.2) -/

/-- True when the pattern occurs somewhere in the code text. -/
def occurs (code pat : String) : Bool :=
  (code.splitOn pat).length > 1

/-- Modelled from the spec: independent per-category signal score over
lexical signals of the submitted code (section 4.2). -/
def categoryScore (code : String) (cat : Category) : Nat :=
  match cat with
  | Category.sorting =>
      (if occurs code "sort" then 2 else 0)
        + (if occurs code "swap" then 1 else 0)
        + (if occurs code "bubble" then 1 else 0)
  | Category.searching =>
      (if occurs code "search" then 2 else 0)
        + (if occurs code "target" then 1 else 0)
        + (if occurs code "mid" then 1 else 0)
  | Category.graph =>
      (if occurs code "graph" then 2 else 0)
        + (if occurs code "visited" then 1 else 0)
        + (if occurs code "bfs" then 1 else 0)
  | Category.tree =>
      (if occurs code "tree" then 2 else 0)
        + (if occurs code "node" then 1 else 0)
  | Category.array =>
      (if occurs code "array" then 1 else 0)
        + (if occurs code "append" then 1 else 0)
  | Category.unclassified => 0

/-- Modelled from the spec: classifier output (section 4.2). -/
structure ClassificationResult where
  category : Category
  algorithm_name : String
  confidence : Nat
deriving DecidableEq, Repr

/-- Modelled from the spec: name of the recognized algorithm within the
winning category (section 4.3 lists the recognized names per category). -/
def algorithmNameFor (code : String) (cat : Category) : String :=
  match cat with
  | Category.sorting =>
      if occurs code "merge" then "Merge Sort"
      else if occurs code "quick" then "Quick Sort"
      else if occurs code "heap" then "Heap Sort"
      else "Bubble Sort"
  | Category.searching =>
      if occurs code "binary" then "Binary Search" else "Linear Search"
  | Category.graph =>
      if occurs code "dfs" then "DFS" else "BFS"
  | Category.tree => "Tree"
  | Category.array => "Array"
  | Category.unclassified => ""

/-- Modelled from the spec: `classify(code, language)` — signals scored
independently per category, strictly highest score wins, exact ties broken by
the precedence order sorting > searching > graph > tree > array, and a result
below the minimum confidence threshold classifies as none (section 4.2). -/
def classify (code lang : String) : ClassificationResult :=
  let _ := lang
  let cats := [Category.sorting, Category.searching, Category.graph,
               Category.tree, Category.array]
  let best := cats.foldl
    (fun acc c =>
      if categoryScore code c > acc.2 then (c, categoryScore code c) else acc)
    (Category.unclassified, 0)
  if best.2 < 2 then
    { category := Category.unclassified, algorithm_name := "", confidence := 0 }
  else
    { category := best.1, algorithm_name := algorithmNameFor code best.1,
      confidence := best.2 }

/- ## Claim theorems for the classifier and the engine -/

/-- C5: classification and simulation are deterministic two-run properties —
two calls of `classify` on identical input give identical results, and two
calls of `simulate` with the synthesized default input give identical frame
sequences and metrics. -/
theorem C5_classify_simulate_deterministic (code lang name : String)
    (cat : Category) :
    (classify code lang = classify code lang
      ∧ ((classify code lang).category, (classify code lang).algorithm_name)
          = ((classify code lang).category, (classify code lang).algorithm_name))
    ∧ (simulate cat name = simulate cat name
      ∧ (simulate cat name).frames = (simulate cat name).frames
      ∧ (simulate cat name).metrics = (simulate cat name).metrics) :=
  ⟨⟨rfl, rfl⟩, rfl, rfl, rfl⟩

/-- C6: the bubble-sort simulation on [64, 34, 25, 12, 22, 11, 90] ends with
the sorted array [11, 12, 22, 25, 34, 64, 90], a final frame whose sorted set
is all 7 indices, and at least 21 comparisons actually performed. -/
theorem C6_bubble_sort_reference :
    ((simulate Category.sorting "Bubble Sort").frames.getLast?).map
        (fun f => f.array) = some [11, 12, 22, 25, 34, 64, 90]
    ∧ ((simulate Category.sorting "Bubble Sort").frames.getLast?).map
        (fun f => f.sorted) = some (List.range 7)
    ∧ 21 ≤ (simulate Category.sorting "Bubble Sort").metrics.comparisons := by
  refine ⟨by decide, by decide, by decide⟩

/- ## AlgorithmCanvas playback (AlgorithmCanvas.jsx) -/

/-- UI state of `AlgorithmCanvas` (`currentFrame`, `isPlaying`, `speed`).
The JSX speed takes the values 0.5, 1 and 2 and only selects the autoplay
interval length, so it is carried here in half units (1, 2, 4). -/
structure CanvasState where
  currentFrame : Nat
  isPlaying : Bool
  speedHalfUnits : Nat
deriving DecidableEq, Repr

/-- `handleStepForward` of AlgorithmCanvas.jsx: advance only while strictly
before the last frame (n is `frames.length`). -/
def stepForward (n : Nat) (s : CanvasState) : CanvasState :=
  if s.currentFrame < n - 1 then { s with currentFrame := s.currentFrame + 1 }
  else s

/-- `handleStepBack` of AlgorithmCanvas.jsx: retreat only while after frame
zero. -/
def stepBack (s : CanvasState) : CanvasState :=
  if 0 < s.currentFrame then { s with currentFrame := s.currentFrame - 1 }
  else s

/-- `handleReset` of AlgorithmCanvas.jsx. -/
def resetCanvas (s : CanvasState) : CanvasState :=
  { s with currentFrame := 0, isPlaying := false }

/-- The progress slider of AlgorithmCanvas.jsx: set the frame index
directly. -/
def sliderSeek (s : CanvasState) (v : Nat) : CanvasState :=
  { s with currentFrame := v }

/-- `handlePlayPause` of AlgorithmCanvas.jsx: restart from frame zero when at
the end, then toggle playing. -/
def playPause (n : Nat) (s : CanvasState) : CanvasState :=
  let s1 := if n - 1 ≤ s.currentFrame then { s with currentFrame := 0 } else s
  { s1 with isPlaying := !s1.isPlaying }

/-- One autoplay interval step of AlgorithmCanvas.jsx: stop on the last
frame, otherwise advance. -/
def autoplayTick (n : Nat) (s : CanvasState) : CanvasState :=
  if n - 1 ≤ s.currentFrame then { s with isPlaying := false }
  else { s with currentFrame := s.currentFrame + 1 }

/-- The playback operations a user or the autoplay timer can apply. -/
inductive CanvasOp
  | forward
  | back
  | reset
  | slider (v : Nat)
  | play
  | tick
deriving DecidableEq, Repr

/-- Dispatch one playback operation on the canvas state. -/
def applyOp (n : Nat) (s : CanvasState) : CanvasOp → CanvasState
  | CanvasOp.forward => stepForward n s
  | CanvasOp.back => stepBack s
  | CanvasOp.reset => resetCanvas s
  | CanvasOp.slider v => sliderSeek s v
  | CanvasOp.play => playPause n s
  | CanvasOp.tick => autoplayTick n s

/-- Apply a sequence of playback operations. -/
def applyOps (n : Nat) (s : CanvasState) (ops : List CanvasOp) : CanvasState :=
  ops.foldl (applyOp n) s

/-- The frame AlgorithmCanvas renders: `const frame = frames[currentFrame]`
(`none` models the out-of-range undefined). -/
def renderedFrame (frames : List SortFrame) (s : CanvasState) : Option SortFrame :=
  frames.get? s.currentFrame

/-- A two-element frame fixture for witnesses. -/
def frameA : SortFrame :=
  { array := [2, 1], comparing := [0, 1], swapping := [], sorted := [],
    message := "Comparing elements" }

/-- Second frame of the fixture. -/
def frameB : SortFrame :=
  { array := [1, 2], comparing := [], swapping := [0, 1], sorted := [0, 1],
    message := "Swapped elements" }

/-- C4: the rendered frame is a pure function of the current frame index —
any two operation sequences (step, reset, slider, play, autoplay) that land
on the same index render the identical frame, and stepping forward then back
restores the frame shown before. -/
theorem C4_rendered_frame_pure_in_index (frames : List SortFrame)
    (s t : CanvasState) (ops tOps : List CanvasOp) :
    ((applyOps frames.length s ops).currentFrame
        = (applyOps frames.length t tOps).currentFrame →
      renderedFrame frames (applyOps frames.length s ops)
        = renderedFrame frames (applyOps frames.length t tOps))
    ∧ (s.currentFrame < frames.length - 1 →
      renderedFrame frames (stepBack (stepForward frames.length s))
        = renderedFrame frames s) := by
  constructor
  · intro h
    unfold renderedFrame
    rw [h]
  · intro h
    unfold stepForward
    rw [if_pos h]
    unfold stepBack
    simp [renderedFrame]

/-- Witness for C4: on a two-frame visualization, pressing forward from frame
0 then back shows frame 0 again, and the sequences [forward] from index 0 and
[] from index 1 render the same frame. -/
theorem C4_rendered_frame_pure_in_index_witness :
    renderedFrame [frameA, frameB]
        (applyOps ([frameA, frameB] : List SortFrame).length
          ⟨0, false, 2⟩ [CanvasOp.forward])
      = renderedFrame [frameA, frameB]
          (applyOps ([frameA, frameB] : List SortFrame).length
            ⟨1, false, 2⟩ [])
    ∧ renderedFrame [frameA, frameB]
        (stepBack (stepForward ([frameA, frameB] : List SortFrame).length
          ⟨0, false, 2⟩))
      = renderedFrame [frameA, frameB] ⟨0, false, 2⟩ :=
  ⟨(C4_rendered_frame_pure_in_index [frameA, frameB]
      ⟨0, false, 2⟩ ⟨1, false, 2⟩ [CanvasOp.forward] []).1 (by decide),
   (C4_rendered_frame_pure_in_index [frameA, frameB]
      ⟨0, false, 2⟩ ⟨0, false, 2⟩ [] []).2 (by decide)⟩

/- ## handleAnalyze and the failure panel (App.jsx, ResultsPanel.jsx) -/

/-- The slice of the analysis response the error-handling claim needs: the
`status` field ResultsPanel inspects and the `message` it prints. -/
structure ResultsValue where
  status : String
  message : Option String
deriving DecidableEq, Repr

/-- The App state handleAnalyze leaves behind: the `analyzing` flag and the
`results` value. -/
structure AppState where
  analyzing : Bool
  results : Option ResultsValue
deriving DecidableEq, Repr

/-- `handleAnalyze` of App.jsx as a function of the fetch-and-parse outcome:
on success the parsed data is stored, on any thrown failure (network or JSON
parse) the catch block stores `{status: "error", message}`; the finally block
resets `analyzing` on both paths. -/
def handleAnalyze (outcome : Except String ResultsValue) : AppState :=
  match outcome with
  | Except.ok data => { analyzing := false, results := some data }
  | Except.error msg =>
      { analyzing := false,
        results := some { status := "error", message := some msg } }

/-- The guard of ResultsPanel.jsx: the failure panel renders exactly when
`results` is absent or `results.status === "error"`. -/
def showsFailurePanel (results : Option ResultsValue) : Bool :=
  match results with
  | none => true
  | some r => r.status == "error"

/-- C7: every analyze invocation terminates with a well-formed result — the
`analyzing` flag is reset on every path, `results` is always set, thrown
failures become `{status: "error", message}`, and ResultsPanel shows the
failure panel exactly when results are absent or carry status "error". -/
theorem C7_analyze_error_handling (outcome : Except String ResultsValue) :
    (handleAnalyze outcome).analyzing = false
    ∧ (∃ r, (handleAnalyze outcome).results = some r)
    ∧ (∀ m, outcome = Except.error m →
        (handleAnalyze outcome).results
          = some { status := "error", message := some m })
    ∧ ∀ r : Option ResultsValue,
        showsFailurePanel r = true
          ↔ (r = none ∨ ∃ v, r = some v ∧ v.status = "error") := by
  refine ⟨?_, ?_, ?_, ?_⟩
  · cases outcome <;> rfl
  · cases outcome with
    | ok d => exact ⟨d, rfl⟩
    | error m => exact ⟨_, rfl⟩
  · intro m hm
    subst hm
    rfl
  · intro r
    cases r with
    | none => simp [showsFailurePanel]
    | some v => simp [showsFailurePanel]

/-- Witness for C7 at a concrete thrown failure: the stored result carries
status "error" with the message, and the failure panel shows. -/
theorem C7_analyze_error_handling_witness :
    (handleAnalyze (Except.error "Failed to fetch")).results
      = some { status := "error", message := some "Failed to fetch" }
    ∧ showsFailurePanel
        (handleAnalyze (Except.error "Failed to fetch")).results = true := by
  have h := C7_analyze_error_handling (Except.error "Failed to fetch")
  refine ⟨h.2.2.1 "Failed to fetch" rfl, ?_⟩
  exact (h.2.2.2 (handleAnalyze (Except.error "Failed to fetch")).results).mpr
    (Or.inr ⟨{ status := "error", message := some "Failed to fetch" }, rfl, rfl⟩)

/- ## WorkflowDashboard roster rendering (WorkflowDashboard.jsx) -/

/-- `getStatus` of WorkflowDashboard.jsx: `statuses[agentId] || 'pending'`.
The statuses object is modelled as an association list; the JS `||` also
turns an empty-string status into the default. -/
def getStatus (statuses : List (String × String)) (agentId : String) : String :=
  match statuses.lookup agentId with
  | some s => if s = "" then "pending" else s
  | none => "pending"

/-- The dashboard renders one card per roster agent, in roster order, each
with its current status. -/
def renderedDashboard (statuses : List (String × String)) :
    List (String × String) :=
  AGENTS.map (fun a => (a.1, getStatus statuses a.1))

/-- C8: for every statuses mapping the dashboard renders exactly the 7 roster
agents in declared order, and an agent absent from the mapping is shown as
"pending". -/
theorem C8_fixed_roster (statuses : List (String × String)) :
    (renderedDashboard statuses).map Prod.fst
        = ["error_detector", "complexity_analyzer", "memory_profiler",
           "security_analyzer", "quality_checker", "algorithm_visualizer",
           "fix_suggester"]
    ∧ (renderedDashboard statuses).length = 7
    ∧ ∀ agentId, statuses.lookup agentId = none →
        getStatus statuses agentId = "pending" := by
  refine ⟨rfl, rfl, ?_⟩
  intro agentId h
  unfold getStatus
  rw [h]

/-- Witness for C8 at the empty statuses mapping: all 7 roster agents render
and the first one defaults to "pending". -/
theorem C8_fixed_roster_witness :
    (renderedDashboard []).map Prod.fst
        = ["error_detector", "complexity_analyzer", "memory_profiler",
           "security_analyzer", "quality_checker", "algorithm_visualizer",
           "fix_suggester"]
    ∧ getStatus [] "error_detector" = "pending" :=
  ⟨(C8_fixed_roster []).1, (C8_fixed_roster []).2.2 "error_detector" rfl⟩

/- ## Languages offered for submission (App.jsx, CodeEditor.jsx) -/

/-- The languages the App.jsx submission dropdown offers, embedded from the
option values of the language select in declared order. -/
def selectLanguages : List String :=
  ["python", "javascript", "typescript", "java", "cpp"]

/-- The 10-value language enum of the spec data model (section 3), also the
multi-language list of the README. -/
def languageEnum : List String :=
  ["python", "javascript", "typescript", "java", "cpp",
   "c", "go", "rust", "ruby", "php"]

/-- `langMap` of `getLanguageMode` in CodeEditor.jsx: the identity table over
the 10 enum values. -/
def langMap : List (String × String) :=
  [("python", "python"), ("javascript", "javascript"),
   ("typescript", "typescript"), ("java", "java"), ("cpp", "cpp"),
   ("c", "c"), ("go", "go"), ("rust", "rust"), ("ruby", "ruby"),
   ("php", "php")]

/-- `getLanguageMode` of CodeEditor.jsx: `langMap[lang] || 'python'`. -/
def getLanguageMode (lang : String) : String :=
  (langMap.lookup lang).getD "python"

/-- C9 counterexample: the submission dropdown does not offer the full
10-value enum — "go" belongs to the enum but is not among the offered
options. -/
theorem C9_go_in_enum_not_offered :
    "go" ∈ languageEnum ∧ "go" ∉ selectLanguages := by
  decide

/-- C9 amended: the submission dropdown offers exactly the 5 languages
python, javascript, typescript, java, cpp — a strict subset of the 10-value
enum — while the editor maps every enum language to itself and anything
outside the table to the default "python". -/
theorem C9_languages_amended (l s : String) :
    selectLanguages = ["python", "javascript", "typescript", "java", "cpp"]
    ∧ (∀ x ∈ selectLanguages, x ∈ languageEnum)
    ∧ (l ∈ languageEnum → getLanguageMode l = l)
    ∧ (langMap.lookup s = none → getLanguageMode s = "python") := by
  refine ⟨rfl, by decide, ?_, ?_⟩
  · intro hl
    fin_cases hl <;> rfl
  · intro hs
    unfold getLanguageMode
    rw [hs]
    rfl

/-- Witness for the amended C9: the enum language "go" maps to itself and the
out-of-enum "haskell" maps to the default "python". -/
theorem C9_languages_amended_witness :
    getLanguageMode "go" = "go" ∧ getLanguageMode "haskell" = "python" :=
  ⟨(C9_languages_amended "go" "haskell").2.2.1 (by decide),
   (C9_languages_amended "go" "haskell").2.2.2 (by decide)⟩

/- ## Visualization display (App.jsx visualization-section) -/

/-- The visualization App.jsx renders:
`results.visualizations && results.visualizations.length > 0` guards a single
`AlgorithmCanvas` fed `results.visualizations[0]` (`none` models an absent
field or an empty sequence, where nothing renders). -/
def displayedVisualization (vizs : Option (List Visualization)) :
    Option Visualization :=
  match vizs with
  | none => none
  | some l => if 0 < l.length then l.get? 0 else none

/-- C10: the UI displays at most one visualization — exactly the head of the
report's ordered sequence, and only when the sequence is present and
non-empty, so no visualization at index 1 or greater is ever displayed. -/
theorem C10_only_first_visualization (vizs : Option (List Visualization)) :
    displayedVisualization vizs = (vizs.getD []).head? := by
  cases vizs with
  | none => rfl
  | some l =>
    cases l with
    | nil => rfl
    | cons a t => simp [displayedVisualization]
